import Mathlib

/-!
Verification of the townhall_queue_tgbot status monitor (src/app.py).

The program is a single-file polling bot: `StatusMonitor.fetch_status` GETs a
queue-status endpoint, `check_conditions` inspects the parsed JSON for the
target queue, `send_telegram_message` POSTs an alert, `run_check` chains the
three, `run_monitor` loops them with a fallback sleep, and `main` validates
configuration and starts the loop.

The embedding below models Python/JSON values as `PyVal`, Python exceptions as
`PyExc`, and each network call's outcome as an explicit parameter
(`FetchOutcome`, `PostOutcome`).  Library behaviour relied on:
  * `requests.Response.raise_for_status` raises `HTTPError` exactly for
    status codes 400-599 (client and server errors), not for other non-2xx
    codes such as 3xx;
  * `requests.Response.json` raises `requests.exceptions.JSONDecodeError`,
    which since requests 2.27 (Jan 2022) is a subclass of
    `requests.exceptions.RequestException` (the repository pins no requests
    version, so current library semantics apply);
  * Python truthiness: `None`, `False`, `0`, `""`, `[]` and the empty dict are
    falsy;
  * `x in d` on a dict tests keys, on a list tests elements, on a str tests
    substrings, and raises `TypeError` on `None`/bool/int;
  * `d[k]` on a non-dict (here: indexing a list or str with a str) raises
    `TypeError`; `.get` on a non-dict raises `AttributeError`;
  * `==` between a str/int and a value of another type is `False` (except
    bool/int, where `True == 1`); `>` between an int and a non-numeric value
    raises `TypeError`.
JSON numbers are modelled as integers (the upstream API's `id` and
`ticket_count` fields are integral); `repr` of a string inside a container is
modelled as simple quoting, without Python's escape rules - no claim touches
either corner.
-/

namespace App

/-- A Python value as this program can meet one: `None`, bools, ints, strings,
lists, and string-keyed dicts (everything `response.json()` can produce). -/
inductive PyVal where
  | none
  | bool (b : Bool)
  | int (n : Int)
  | str (s : String)
  | list (xs : List PyVal)
  | dict (kvs : List (String × PyVal))

/-- The Python exceptions the program's `try` blocks can meet.  All four model
subclasses of `Exception`; `jsonDecodeError` models
`requests.exceptions.JSONDecodeError`, which since requests 2.27 is also a
subclass of `requests.exceptions.RequestException`. -/
inductive PyExc where
  | requestException (msg : String)
  | jsonDecodeError (msg : String)
  | typeError (msg : String)
  | attributeError (msg : String)
  | keyError (msg : String)

/-- Whether `except requests.exceptions.RequestException` catches the
exception: true for `RequestException` itself and its subclass
`JSONDecodeError` (requests >= 2.27). -/
def PyExc.isRequestException : PyExc → Bool
  | .requestException _ => true
  | .jsonDecodeError _ => true
  | _ => false

/-- Python truthiness of a `PyVal`. -/
def truthy : PyVal → Bool
  | .none => false
  | .bool b => b
  | .int n => n != 0
  | .str s => s != ""
  | .list xs => !xs.isEmpty
  | .dict kvs => !kvs.isEmpty

/-- First-match association lookup: Python dict indexing/`.get` (a Python dict
holds each key once, so first-match loses nothing). -/
def lookupKey : List (String × PyVal) → String → Option PyVal
  | [], _ => Option.none
  | kv :: rest, k => if kv.1 = k then some kv.2 else lookupKey rest k

/-- Python `k in d` for a dict: key membership. -/
def containsKey : List (String × PyVal) → String → Bool
  | [], _ => false
  | kv :: rest, k => if kv.1 = k then true else containsKey rest k

/-- Python `==` between a value and a str constant: only a str compares equal. -/
def pyEqStr (v : PyVal) (k : String) : Bool :=
  match v with
  | .str s => s == k
  | _ => false

/-- Python `==` between a value and an int constant: ints compare by value,
bools as 0/1, everything else is unequal. -/
def pyEqInt (v : PyVal) (n : Int) : Bool :=
  match v with
  | .int m => m == n
  | .bool b => (if b then (1 : Int) else 0) == n
  | _ => false

/-- Python `k in v` for a string key `k`: dict keys, list elements, str
substring; `TypeError` on `None`, bool, int. -/
def pyContains (v : PyVal) (k : String) : Except PyExc Bool :=
  match v with
  | .dict kvs => .ok (containsKey kvs k)
  | .list xs => .ok (xs.any (fun x => pyEqStr x k))
  | .str s => .ok (decide (k.data <:+: s.data))
  | _ => .error (.typeError "argument of type is not iterable")

/-- Python `v[k]` for a string key `k`: dict lookup (`KeyError` when absent),
`TypeError` on every other type. -/
def pySubscript (v : PyVal) (k : String) : Except PyExc PyVal :=
  match v with
  | .dict kvs =>
    match lookupKey kvs k with
    | some x => .ok x
    | Option.none => .error (.keyError k)
  | _ => .error (.typeError "indices must be integers")

/-- Python iteration `for q in v`: list elements, dict keys, str characters;
`TypeError` otherwise. -/
def pyIter (v : PyVal) : Except PyExc (List PyVal) :=
  match v with
  | .list xs => .ok xs
  | .dict kvs => .ok (kvs.map (fun kv => PyVal.str kv.1))
  | .str s => .ok (s.data.map (fun c => PyVal.str (String.singleton c)))
  | _ => .error (.typeError "object is not iterable")

/-- Python `v.get(k, dflt)`: only dicts have `.get`; `AttributeError`
otherwise. -/
def pyGetDefault (v : PyVal) (k : String) (dflt : PyVal) : Except PyExc PyVal :=
  match v with
  | .dict kvs => .ok ((lookupKey kvs k).getD dflt)
  | _ => .error (.attributeError "object has no attribute get")

/-- Python `v > 0`: defined for ints and bools, `TypeError` otherwise. -/
def pyGtZero (v : PyVal) : Except PyExc Bool :=
  match v with
  | .int n => .ok (decide (0 < n))
  | .bool b => .ok b
  | _ => .error (.typeError "not supported between instances")

mutual
/-- Python `repr` of a value (string escaping inside the quotes not
modelled). -/
def pyRepr : PyVal → String
  | .none => "None"
  | .bool true => "True"
  | .bool false => "False"
  | .int n => toString n
  | .str s => "'" ++ s ++ "'"
  | .list xs => "[" ++ pyReprList xs ++ "]"
  | .dict kvs => "\x7b" ++ pyReprDict kvs ++ "\x7d"

/-- Comma-separated `repr`s of a list's elements. -/
def pyReprList : List PyVal → String
  | [] => ""
  | [x] => pyRepr x
  | x :: y :: rest => pyRepr x ++ ", " ++ pyReprList (y :: rest)

/-- Comma-separated `'key': repr` pairs of a dict. -/
def pyReprDict : List (String × PyVal) → String
  | [] => ""
  | [kv] => "'" ++ kv.1 ++ "': " ++ pyRepr kv.2
  | kv :: kv2 :: rest => "'" ++ kv.1 ++ "': " ++ pyRepr kv.2 ++ ", " ++ pyReprDict (kv2 :: rest)
end

/-- Python `str` of a value, as an f-string interpolates it: a str verbatim,
anything else its `repr`. -/
def pyStr (v : PyVal) : String :=
  match v with
  | .str s => s
  | v => pyRepr v

/-- The message built at app.py lines 90 and 94 (both branches build the same
string): the f-string over `ticket_count`, `queue_name` and the current
time. -/
def alertText (ticket_count queue_name : PyVal) (current_time : String) : String :=
  "🎫 Currently there are " ++ pyStr ticket_count ++ " tickets available for '"
    ++ pyStr queue_name ++ "' at " ++ current_time

/-- A log line's level (the program logs via `logging.info/warning/error`). -/
inductive LogLevel where
  | info
  | warning
  | error

/-- One log line: level and message. -/
structure LogEntry where
  level : LogLevel
  msg : String

/-- app.py line 68: the warning when `result`/`Wrocław` is missing. -/
def warnStructure : LogEntry :=
  ⟨.warning, "Expected structure not found in API response"⟩

/-- app.py line 81: the warning when no queue record matches the target id. -/
def warnQueueMissing (tqid : Int) : LogEntry :=
  ⟨.warning, "Queue with ID " ++ toString tqid ++ " not found in Wrocław"⟩

/-- The loop of app.py lines 74-78: scan `wroclaw_queues` for the first record
whose `.get('id')` equals the target id (`.get` on a non-dict element
raises). -/
def findQueue (tqid : Int) : List PyVal → Except PyExc (Option PyVal)
  | [] => .ok Option.none
  | queue :: rest =>
    match pyGetDefault queue "id" PyVal.none with
    | .error e => .error e
    | .ok idv =>
      if pyEqInt idv tqid then .ok (some queue) else findQueue tqid rest

/-- The result of one `check_conditions` call: the returned pair and the log
lines written. -/
abbrev CheckOut := (Bool × String) × List LogEntry

/-- The `try` body of `check_conditions` (app.py lines 66-99).  Mirrors the
source; the source subscripts `data['result']` twice (in the line-67 test and
again on line 71) - `pySubscript` is pure, so the second evaluation is reused
here.  Note that lines 88-95 return `(True, message)` on both sides of the
`ticket_count > 0` test (the message is built identically in both branches),
so lines 97-99 are unreachable. -/
def checkBody (tqid : Int) (now : String) (data : PyVal) : Except PyExc CheckOut :=
  match pyContains data "result" with
  | .error e => .error e
  | .ok false => .ok ((false, ""), [warnStructure])
  | .ok true =>
    match pySubscript data "result" with
    | .error e => .error e
    | .ok resultVal =>
      match pyContains resultVal "Wrocław" with
      | .error e => .error e
      | .ok false => .ok ((false, ""), [warnStructure])
      | .ok true =>
        match pySubscript resultVal "Wrocław" with
        | .error e => .error e
        | .ok wroclaw_queues =>
          match pyIter wroclaw_queues with
          | .error e => .error e
          | .ok queues =>
            match findQueue tqid queues with
            | .error e => .error e
            | .ok Option.none => .ok ((false, ""), [warnQueueMissing tqid])
            | .ok (some target_queue) =>
              if truthy target_queue = false then
                .ok ((false, ""), [warnQueueMissing tqid])
              else
                match pyGetDefault target_queue "ticket_count" (PyVal.int 0) with
                | .error e => .error e
                | .ok ticket_count =>
                  match pyGetDefault target_queue "name" (PyVal.str "Unknown Queue") with
                  | .error e => .error e
                  | .ok queue_name =>
                    match pyGtZero ticket_count with
                    | .error e => .error e
                    | .ok _ => .ok ((true, alertText ticket_count queue_name now), [])

/-- The message `str(e)` of an exception, as the error log interpolates it. -/
def PyExc.text : PyExc → String
  | .requestException m => m
  | .jsonDecodeError m => m
  | .typeError m => m
  | .attributeError m => m
  | .keyError m => m

/-- `StatusMonitor.check_conditions` (app.py lines 57-103) with its log
output: falsy data short-circuits to `(False, "")` with no log; any exception
from the body is caught and collapsed to `(False, "")` with an error log. -/
def checkFull (tqid : Int) (now : String) (data : PyVal) : CheckOut :=
  if truthy data = false then ((false, ""), [])
  else
    match checkBody tqid now data with
    | .ok r => r
    | .error e => ((false, ""), [⟨.error, "Error checking conditions: " ++ e.text⟩])

/-- The pair `check_conditions` returns. -/
def check_conditions (tqid : Int) (now : String) (data : PyVal) : Bool × String :=
  (checkFull tqid now data).1

/-- What the program observes of one `requests.get` response: the final status
code, whether `response.content` is non-empty, and what `response.json()`
yields (a parsed value, or the message of the `JSONDecodeError` it raises). -/
structure HttpResponse where
  status : Nat
  hasContent : Bool
  jsonResult : Except String PyVal

/-- The environment's outcome for one `requests.get` call: a raised
`RequestException` (timeout or connection failure), or a response. -/
inductive FetchOutcome where
  | timeout
  | connFailure
  | gotResponse (r : HttpResponse)

/-- `requests.Response.raise_for_status`: raises `HTTPError` (a
`RequestException`) exactly for 4xx and 5xx status codes. -/
def raise_for_status (status : Nat) : Except PyExc Unit :=
  if 400 ≤ status ∧ status < 600 then
    .error (.requestException ("HTTPError for status " ++ toString status))
  else .ok ()

/-- The `try` body of `fetch_status` (app.py lines 36-52): GET, then
`raise_for_status`, then `response.json() if response.content else None`. -/
def fetchBody (o : FetchOutcome) : Except PyExc (Option PyVal) :=
  match o with
  | .timeout => .error (.requestException "ConnectTimeout")
  | .connFailure => .error (.requestException "ConnectionError")
  | .gotResponse r =>
    match raise_for_status r.status with
    | .error e => .error e
    | .ok _ =>
      if r.hasContent then
        match r.jsonResult with
        | .ok v => .ok (some v)
        | .error m => .error (.jsonDecodeError m)
      else .ok Option.none

/-- `StatusMonitor.fetch_status` (app.py lines 33-55): the body's
`RequestException`s (`JSONDecodeError` included, requests >= 2.27) are caught,
logged and collapsed to `None`. -/
def fetch_status (o : FetchOutcome) : Except PyExc (Option PyVal) :=
  match fetchBody o with
  | .error e => if e.isRequestException then .ok Option.none else .error e
  | .ok v => .ok v

/-- The environment's outcome for one `requests.post` call. -/
inductive PostOutcome where
  | timeout
  | connFailure
  | gotResponse (status : Nat)

/-- The `try` body of `send_telegram_message` (app.py lines 107-116): POST,
`raise_for_status`, log, `return True`. -/
def sendBody (o : PostOutcome) : Except PyExc Bool :=
  match o with
  | .timeout => .error (.requestException "ConnectTimeout")
  | .connFailure => .error (.requestException "ConnectionError")
  | .gotResponse s =>
    match raise_for_status s with
    | .error e => .error e
    | .ok _ => .ok true

/-- `StatusMonitor.send_telegram_message` (app.py lines 105-119): any
`RequestException` is caught, logged and collapsed to `False`. -/
def send_telegram_message (message : String) (o : PostOutcome) : Except PyExc Bool :=
  match sendBody o with
  | .error e => if e.isRequestException then .ok false else .error e
  | .ok b => .ok b

/-- The environment of one `run_check` pass: the fetch outcome, the post
outcome (used if an alert is sent), and the two `datetime.now()` strftime
strings read inside `check_conditions` and inside `run_check`. -/
structure World where
  fetch : FetchOutcome
  post : PostOutcome
  checkTime : String
  alertTime : String

/-- The full alert of app.py line 139 wrapped around `check_conditions`'
message. -/
def fullAlert (alert_message alertTime : String) : String :=
  "🚨 <b>Status Alert</b> 🚨\n\n" ++ alert_message ++ "\n\n<i>Time: "
    ++ alertTime ++ "</i>"

/-- `StatusMonitor.run_check` (app.py lines 121-146).  Returns the list of
messages passed to the Notifier during the pass (in order), or the exception
the pass raises. -/
def run_check (tqid : Int) (w : World) : Except PyExc (List String) :=
  match fetch_status w.fetch with
  | .error e => .error e
  | .ok Option.none => .ok []
  | .ok (some data) =>
    match check_conditions tqid w.checkTime data with
    | (false, _) => .ok []
    | (true, alert_message) =>
      let full_message := fullAlert alert_message w.alertTime
      match send_telegram_message full_message w.post with
      | .error e => .error e
      | .ok _ => .ok [full_message]

/-- What the environment deals one iteration of the `while True` loop: the
pass and its sleep complete; the pass raises an exception (caught by
`except Exception`); or a `KeyboardInterrupt` is delivered. -/
inductive CycleEvent where
  | completes
  | raises (e : PyExc)
  | interrupt

/-- `StatusMonitor.run_monitor` (app.py lines 148-161) over a finite prefix of
the environment's events: the list of sleeps performed (in time units, i.e.
seconds) and whether the loop has exited.  A completed pass sleeps
`interval_minutes * 60`; a raising pass is logged and sleeps the fixed 60;
a `KeyboardInterrupt` breaks the loop. -/
def run_monitor (interval_minutes : Nat) : List CycleEvent → List Nat × Bool
  | [] => ([], false)
  | CycleEvent.completes :: rest =>
    let r := run_monitor interval_minutes rest
    (interval_minutes * 60 :: r.1, r.2)
  | CycleEvent.raises _ :: rest =>
    let r := run_monitor interval_minutes rest
    (60 :: r.1, r.2)
  | CycleEvent.interrupt :: _ => ([], true)

/-- The loop event one `run_check` result produces: a normal return completes
the cycle, an exception reaches the loop's `except Exception` handler. -/
def cycleEventOf (r : Except PyExc (List String)) : CycleEvent :=
  match r with
  | .ok _ => .completes
  | .error e => .raises e

/-- The process environment `main` reads: `TELEGRAM_BOT_TOKEN` and
`TELEGRAM_CHAT_ID` (`os.environ.get` yields `None` when unset). -/
structure Env where
  token : Option String
  chatId : Option String

/-- Python `==` between `os.environ.get`'s result and a string literal:
`None == "..."` is `False`. -/
def pyEqOptStr (v : Option String) (s : String) : Bool :=
  match v with
  | some t => t == s
  | Option.none => false

/-- Python truthiness of `os.environ.get`'s result (`None` and `""` are
falsy). -/
def optTruthy (v : Option String) : Bool :=
  match v with
  | some s => s != ""
  | Option.none => false

/-- The observable steps of `main`: a `print`, the test notification being
sent, a status fetch being attempted, entering `run_monitor` with its
interval.  `main` itself never fetches: `fetchAttempt` exists so "no fetch
before the loop" is expressible over the trace. -/
inductive MainEvent where
  | printed (s : String)
  | sentTest (message : String)
  | fetchAttempt
  | enteredLoop (interval_minutes : Nat)

/-- The two startup prints of app.py lines 165 and 167. -/
def loadMsgs (env : Env) : List MainEvent :=
  [.printed ("Bot token loaded: " ++ (if optTruthy env.token then "Yes" else "No")),
   .printed ("TELEGRAM_CHAT_ID loaded: " ++ (if optTruthy env.chatId then "Yes" else "No"))]

/-- The instructional prints of app.py lines 171-175. -/
def configHelp : List String :=
  ["❌ Please configure your Telegram bot token and chat ID first!",
   "\nSteps to set up:",
   "1. Create a bot with @BotFather on Telegram",
   "2. Get your chat ID by messaging @userinfobot",
   "3. Replace the placeholders in this script"]

/-- app.py line 182: the startup test notification's text. -/
def testMessage : String := "✅ Status monitor started successfully!"

/-- `main` (app.py lines 163-187) as its event trace: print the two load
lines; return early with the instructional message when a credential equals
its placeholder (note: only equality with the placeholder is tested - an
absent credential is `None`, which is not equal to the placeholder string);
otherwise send the test notification, and enter the monitor loop at a
5-minute interval exactly when it succeeded. -/
def main (env : Env) (testPost : PostOutcome) : Except PyExc (List MainEvent) :=
  let pre := loadMsgs env
  if pyEqOptStr env.token "YOUR_BOT_TOKEN_HERE"
      || pyEqOptStr env.chatId "YOUR_CHAT_ID_HERE" then
    .ok (pre ++ configHelp.map MainEvent.printed)
  else
    match send_telegram_message testMessage testPost with
    | .error e => .error e
    | .ok true =>
      .ok (pre ++ [MainEvent.sentTest testMessage,
                   MainEvent.printed "✅ Telegram connection test successful!",
                   MainEvent.enteredLoop 5])
    | .ok false =>
      .ok (pre ++ [MainEvent.sentTest testMessage,
                   MainEvent.printed "❌ Telegram connection test failed. Check your configuration."])

/-- How many test notifications a `main` trace sends. -/
def countTestSends : List MainEvent → Nat
  | [] => 0
  | MainEvent.sentTest _ :: rest => countTestSends rest + 1
  | _ :: rest => countTestSends rest

/-- Substring containment, as Python `"x" in message` tests it. -/
abbrev strSub (needle hay : String) : Prop := needle.data <:+: hay.data

/-! Helper lemmas. -/

/-- A key that looks up is a member. -/
theorem containsKey_of_lookup {kvs : List (String × PyVal)} {k : String} {v : PyVal}
    (h : lookupKey kvs k = some v) : containsKey kvs k = true := by
  induction kvs with
  | nil => simp [lookupKey] at h
  | cons kv rest ih =>
    by_cases hk : kv.1 = k
    · simp [containsKey, hk]
    · rw [lookupKey] at h
      simp only [hk, if_false] at h
      simp [containsKey, hk, ih h]

/-- A dict with a key that looks up is non-empty, hence truthy. -/
theorem truthy_dict_of_lookup {kvs : List (String × PyVal)} {k : String} {v : PyVal}
    (h : lookupKey kvs k = some v) : truthy (PyVal.dict kvs) = true := by
  cases kvs with
  | nil => simp [lookupKey] at h
  | cons kv rest => simp [truthy]

/-- A value a subscript succeeds on is a dict with the key present, hence
truthy. -/
theorem truthy_of_subscript {data : PyVal} {k : String} {rv : PyVal}
    (h : pySubscript data k = .ok rv) : truthy data = true := by
  cases data with
  | dict kvs =>
    rw [pySubscript] at h
    cases hkv : lookupKey kvs k with
    | none => rw [hkv] at h; cases h
    | some x => exact truthy_dict_of_lookup hkv
  | none => cases h
  | bool b => cases h
  | int n => cases h
  | str s => cases h
  | list xs => cases h

/-- `findQueue` skips any leading run of dict records whose id does not
match. -/
theorem findQueue_skip (tqid : Int) (qpre l : List PyVal)
    (h : ∀ q ∈ qpre, ∃ kv, q = PyVal.dict kv
          ∧ pyEqInt ((lookupKey kv "id").getD PyVal.none) tqid = false) :
    findQueue tqid (qpre ++ l) = findQueue tqid l := by
  induction qpre with
  | nil => rfl
  | cons q rest ih =>
    obtain ⟨kv, hq, hne⟩ := h q (List.mem_cons_self q rest)
    subst hq
    rw [List.cons_append, findQueue]
    simp [pyGetDefault, hne, ih fun x hx => h x (List.mem_cons_of_mem _ hx)]

/-- `findQueue` finds nothing in a list of dict records none of which
matches. -/
theorem findQueue_none (tqid : Int) (qs : List PyVal)
    (h : ∀ q ∈ qs, ∃ kv, q = PyVal.dict kv
          ∧ pyEqInt ((lookupKey kv "id").getD PyVal.none) tqid = false) :
    findQueue tqid qs = .ok Option.none := by
  have := findQueue_skip tqid qs [] h
  rwa [List.append_nil] at this

/-- `pyEqOptStr` tests exactly equality with `some` of the literal. -/
theorem pyEqOptStr_true_iff (v : Option String) (s : String) :
    pyEqOptStr v s = true ↔ v = some s := by
  cases v <;> simp [pyEqOptStr]

/-- The Notifier never raises: every outcome yields `.ok true` or
`.ok false` (every exception its body can raise is a `RequestException`,
which the handler catches). -/
theorem send_total (message : String) (o : PostOutcome) :
    send_telegram_message message o = .ok true
      ∨ send_telegram_message message o = .ok false := by
  cases o with
  | timeout => right; rfl
  | connFailure => right; rfl
  | gotResponse s =>
    by_cases h : 400 ≤ s ∧ s < 600
    · right; simp [send_telegram_message, sendBody, raise_for_status, h, PyExc.isRequestException]
    · left; simp [send_telegram_message, sendBody, raise_for_status, h]

/-- The Fetcher never raises: every outcome yields some `.ok` result. -/
theorem fetch_total (o : FetchOutcome) : ∃ r, fetch_status o = .ok r := by
  cases o with
  | timeout => exact ⟨Option.none, rfl⟩
  | connFailure => exact ⟨Option.none, rfl⟩
  | gotResponse r =>
    by_cases h : 400 ≤ r.status ∧ r.status < 600
    · exact ⟨Option.none, by
        simp [fetch_status, fetchBody, raise_for_status, h, PyExc.isRequestException]⟩
    · cases hc : r.hasContent with
      | false => exact ⟨Option.none, by
          simp [fetch_status, fetchBody, raise_for_status, h, hc]⟩
      | true =>
        cases hj : r.jsonResult with
        | error m => exact ⟨Option.none, by
            simp [fetch_status, fetchBody, raise_for_status, h, hc, hj, PyExc.isRequestException]⟩
        | ok v => exact ⟨some v, by
            simp [fetch_status, fetchBody, raise_for_status, h, hc, hj]⟩

/-- A string is a substring of any text it stands amid. -/
theorem strSub_mid (a n b : String) : strSub n (a ++ n ++ b) :=
  ⟨a.data, b.data, by simp⟩

/-- The alert text contains the printed ticket count. -/
theorem strSub_alert_count (i : Int) (q : PyVal) (now : String) :
    strSub (toString i) (alertText (PyVal.int i) q now) := by
  refine ⟨"🎫 Currently there are ".data,
    (" tickets available for '" ++ pyStr q ++ "' at " ++ now).data, ?_⟩
  simp [alertText, pyStr, pyRepr]

/-- The alert text contains the queue name. -/
theorem strSub_alert_name (tc : PyVal) (nm now : String) :
    strSub nm (alertText tc (PyVal.str nm) now) := by
  refine ⟨("🎫 Currently there are " ++ pyStr tc ++ " tickets available for '").data,
    ("' at " ++ now).data, ?_⟩
  simp [alertText, pyStr]

/-- Every `.ok` result of `check_conditions`' try body is `(False, "")` or
`(True, message)`. -/
theorem checkBody_ok_shape (tqid : Int) (now : String) (data : PyVal) :
    ∀ r, checkBody tqid now data = .ok r → r.1 = (false, "") ∨ ∃ m, r.1 = (true, m) := by
  intro r h
  unfold checkBody at h
  repeat' split at h
  all_goals cases h
  all_goals simp

/-! The claims. -/

/-- C1: for a well-formed response whose `Wrocław` region holds a (first
matching) record with the target queue id, name `nm` and ticket count `N`
(present as `N`, or absent with `N = 0` - `.get`'s default), `check_conditions`
returns `met = True` and a message containing both `N` and `nm`, for every
`N ≥ 0`, zero included. -/
theorem C1_evaluate_reports_count
    (dkvs rkvs fields : List (String × PyVal)) (qpre rest : List PyVal)
    (N : Nat) (nm now : String) (tqid : Int)
    (hres : lookupKey dkvs "result" = some (PyVal.dict rkvs))
    (hreg : lookupKey rkvs "Wrocław" = some (PyVal.list (qpre ++ PyVal.dict fields :: rest)))
    (hpre : ∀ q ∈ qpre, ∃ kv, q = PyVal.dict kv
          ∧ pyEqInt ((lookupKey kv "id").getD PyVal.none) tqid = false)
    (hid : pyEqInt ((lookupKey fields "id").getD PyVal.none) tqid = true)
    (htc : (lookupKey fields "ticket_count").getD (PyVal.int 0) = PyVal.int (N : Int))
    (hnm : (lookupKey fields "name").getD (PyVal.str "Unknown Queue") = PyVal.str nm) :
    check_conditions tqid now (PyVal.dict dkvs)
      = (true, alertText (PyVal.int (N : Int)) (PyVal.str nm) now)
    ∧ strSub (toString N) (alertText (PyVal.int (N : Int)) (PyVal.str nm) now)
    ∧ strSub nm (alertText (PyVal.int (N : Int)) (PyVal.str nm) now) := by
  have hfne : fields ≠ [] := by
    intro hf
    rw [hf] at hid
    simp [lookupKey, pyEqInt] at hid
  have htq : truthy (PyVal.dict fields) = true := by
    cases fields with
    | nil => exact absurd rfl hfne
    | cons kv rest2 => simp [truthy]
  have hfind : findQueue tqid (qpre ++ PyVal.dict fields :: rest)
      = .ok (some (PyVal.dict fields)) := by
    rw [findQueue_skip tqid qpre _ hpre, findQueue]
    simp [pyGetDefault, hid]
  have hbody : checkBody tqid now (PyVal.dict dkvs)
      = .ok ((true, alertText (PyVal.int (N : Int)) (PyVal.str nm) now), []) := by
    rw [checkBody]
    simp only [pyContains, containsKey_of_lookup hres, pySubscript, hres,
      containsKey_of_lookup hreg, hreg, pyIter, hfind, htq, pyGetDefault, htc, hnm,
      pyGtZero]
    simp
  refine ⟨?_, by
      have h := strSub_alert_count (N : Int) (PyVal.str nm) now
      rwa [show toString ((N : Int)) = toString N from rfl] at h,
    strSub_alert_name _ nm now⟩
  simp [check_conditions, checkFull, truthy_dict_of_lookup hres, hbody]

/-- The record of the C1/C9 scenario: queue id 24, name "Rejestracja pobytu",
3 tickets. -/
def c1fields : List (String × PyVal) :=
  [("id", PyVal.int 24), ("name", PyVal.str "Rejestracja pobytu"),
   ("ticket_count", PyVal.int 3)]

/-- The `result` mapping of the C1/C9 scenario. -/
def c1rkvs : List (String × PyVal) := [("Wrocław", PyVal.list [PyVal.dict c1fields])]

/-- The full response of the C1/C9 scenario. -/
def c1dkvs : List (String × PyVal) := [("result", PyVal.dict c1rkvs)]

/-- C1, witnessed at the concrete scenario response. -/
theorem C1_evaluate_reports_count_witness :
    check_conditions 24 "2026-02-03 10:00:00" (PyVal.dict c1dkvs)
      = (true, alertText (PyVal.int 3) (PyVal.str "Rejestracja pobytu") "2026-02-03 10:00:00")
    ∧ strSub (toString 3)
        (alertText (PyVal.int 3) (PyVal.str "Rejestracja pobytu") "2026-02-03 10:00:00")
    ∧ strSub "Rejestracja pobytu"
        (alertText (PyVal.int 3) (PyVal.str "Rejestracja pobytu") "2026-02-03 10:00:00") :=
  C1_evaluate_reports_count c1dkvs c1rkvs c1fields [] [] 3 "Rejestracja pobytu"
    "2026-02-03 10:00:00" 24 rfl rfl (by simp) rfl rfl rfl

/-- C2's counterexample: a 200 response with a non-empty body that fails to
parse makes `fetch_status` return Absent (`None`) - it does not propagate:
`response.json()`'s `JSONDecodeError` is a `RequestException` (requests >=
2.27) and is caught by `fetch_status`'s own handler. -/
theorem C2_parse_error_counterexample :
    fetch_status (FetchOutcome.gotResponse
        ⟨200, true, Except.error "Expecting value: line 1 column 1 (char 0)"⟩)
      = Except.ok Option.none := rfl

/-- C2, amended: a parse failure on a non-empty body is caught inside the
Fetcher, which logs it and returns Absent; `run_check` then returns normally
having notified nobody, so the Scheduler's next cycle comes after the
configured `interval_minutes * 60`, not the 60-unit fallback. -/
theorem C2_parse_caught_amended (s : Nat) (e : String) (hs : ¬(400 ≤ s ∧ s < 600)) :
    fetch_status (FetchOutcome.gotResponse ⟨s, true, Except.error e⟩) = Except.ok Option.none
    ∧ (∀ (tqid : Int) (post : PostOutcome) (t1 t2 : String),
        run_check tqid ⟨FetchOutcome.gotResponse ⟨s, true, Except.error e⟩, post, t1, t2⟩
          = Except.ok [])
    ∧ (∀ (tqid : Int) (post : PostOutcome) (t1 t2 : String) (im : Nat)
        (rest : List CycleEvent),
        run_monitor im (cycleEventOf (run_check tqid
            ⟨FetchOutcome.gotResponse ⟨s, true, Except.error e⟩, post, t1, t2⟩) :: rest)
          = (im * 60 :: (run_monitor im rest).1, (run_monitor im rest).2)) := by
  have hf : fetch_status (FetchOutcome.gotResponse ⟨s, true, Except.error e⟩)
      = Except.ok Option.none := by
    simp [fetch_status, fetchBody, raise_for_status, hs, PyExc.isRequestException]
  have hr : ∀ (tqid : Int) (post : PostOutcome) (t1 t2 : String),
      run_check tqid ⟨FetchOutcome.gotResponse ⟨s, true, Except.error e⟩, post, t1, t2⟩
        = Except.ok [] := by
    intro tqid post t1 t2
    simp [run_check, hf]
  refine ⟨hf, hr, ?_⟩
  intro tqid post t1 t2 im rest
  rw [hr tqid post t1 t2]
  rfl

/-- C2 amended, witnessed at a concrete parse failure. -/
theorem C2_parse_caught_witness :
    fetch_status (FetchOutcome.gotResponse ⟨200, true, Except.error "Expecting value"⟩)
      = Except.ok Option.none
    ∧ run_check 24 ⟨FetchOutcome.gotResponse ⟨200, true, Except.error "Expecting value"⟩,
        PostOutcome.gotResponse 200, "T1", "T2"⟩ = Except.ok []
    ∧ run_monitor 5 (cycleEventOf (run_check 24
        ⟨FetchOutcome.gotResponse ⟨200, true, Except.error "Expecting value"⟩,
          PostOutcome.gotResponse 200, "T1", "T2"⟩) :: []) = ([300], false) := by
  obtain ⟨h1, h2, h3⟩ := C2_parse_caught_amended 200 "Expecting value" (by omega)
  exact ⟨h1, h2 24 (PostOutcome.gotResponse 200) "T1" "T2", by
    rw [h3 24 (PostOutcome.gotResponse 200) "T1" "T2" 5 []]; rfl⟩

/-- C3's counterexample: with both environment variables absent (`None`),
`main` does not return early with the instructional message - the placeholder
test compares `None == "YOUR_..."`, which is `False`, so the monitor is
created, the test notification is attempted and (here succeeding) the polling
loop is entered. -/
theorem C3_absent_env_counterexample :
    ∃ evs, main ⟨Option.none, Option.none⟩ (PostOutcome.gotResponse 200) = Except.ok evs
      ∧ MainEvent.enteredLoop 5 ∈ evs ∧ countTestSends evs = 1 :=
  ⟨_, rfl, by simp, rfl⟩

/-- C3, amended: `main` prints the instructional message and returns early
exactly when the token or chat id equals its placeholder string; an absent
(unset) variable is `None`, fails the equality test, and proceeds to the
monitor and the test notification. -/
theorem C3_placeholder_amended (env : Env) (tp : PostOutcome) :
    main env tp = Except.ok (loadMsgs env ++ configHelp.map MainEvent.printed)
      ↔ (env.token = some "YOUR_BOT_TOKEN_HERE" ∨ env.chatId = some "YOUR_CHAT_ID_HERE") := by
  constructor
  · intro h
    cases hcond : (pyEqOptStr env.token "YOUR_BOT_TOKEN_HERE"
        || pyEqOptStr env.chatId "YOUR_CHAT_ID_HERE") with
    | true =>
      simp only [Bool.or_eq_true] at hcond
      rcases hcond with h1 | h1
      · exact Or.inl ((pyEqOptStr_true_iff _ _).mp h1)
      · exact Or.inr ((pyEqOptStr_true_iff _ _).mp h1)
    | false =>
      exfalso
      rcases send_total testMessage tp with hsend | hsend <;>
        simp [main, hcond, hsend, loadMsgs, configHelp] at h
  · intro h
    rcases h with h | h <;> simp [main, pyEqOptStr, h]

/-- C3 amended, witnessed at a concrete placeholder configuration. -/
theorem C3_placeholder_witness :
    main ⟨some "YOUR_BOT_TOKEN_HERE", some "42"⟩ (PostOutcome.gotResponse 200)
      = Except.ok (loadMsgs ⟨some "YOUR_BOT_TOKEN_HERE", some "42"⟩
          ++ configHelp.map MainEvent.printed) :=
  (C3_placeholder_amended ⟨some "YOUR_BOT_TOKEN_HERE", some "42"⟩
    (PostOutcome.gotResponse 200)).mpr (Or.inl rfl)

/-- C4: a pass that raises is logged and followed by the fixed 60-unit sleep
(not `interval_minutes * 60`), after which the loop continues; the loop exits
exactly when a `KeyboardInterrupt` arrives. -/
theorem C4_scheduler_backoff :
    (∀ (im : Nat) (e : PyExc) (rest : List CycleEvent),
        run_monitor im (CycleEvent.raises e :: rest)
          = (60 :: (run_monitor im rest).1, (run_monitor im rest).2))
    ∧ (∀ (im : Nat) (evs : List CycleEvent),
        (run_monitor im evs).2 = true ↔ CycleEvent.interrupt ∈ evs) := by
  constructor
  · intro im e rest; rfl
  · intro im evs
    induction evs with
    | nil => simp [run_monitor]
    | cons ev rest ih => cases ev <;> simp [run_monitor, ih]

/-- C5: `check_conditions` returns `(False, "")` when the response has no
`result` field, when `result` has no `Wrocław` entry, and when no record of
the region's sequence has the target id; when records match, the first
matching record is the one `findQueue` selects. -/
theorem C5_evaluate_negative_paths :
    (∀ (tqid : Int) (now : String) (data : PyVal),
        pyContains data "result" = .ok false → check_conditions tqid now data = (false, ""))
    ∧ (∀ (tqid : Int) (now : String) (data rv : PyVal),
        pyContains data "result" = .ok true → pySubscript data "result" = .ok rv →
        pyContains rv "Wrocław" = .ok false → check_conditions tqid now data = (false, ""))
    ∧ (∀ (tqid : Int) (now : String) (dkvs rkvs : List (String × PyVal)) (qs : List PyVal),
        lookupKey dkvs "result" = some (PyVal.dict rkvs) →
        lookupKey rkvs "Wrocław" = some (PyVal.list qs) →
        (∀ q ∈ qs, ∃ kv, q = PyVal.dict kv
          ∧ pyEqInt ((lookupKey kv "id").getD PyVal.none) tqid = false) →
        check_conditions tqid now (PyVal.dict dkvs) = (false, ""))
    ∧ (∀ (tqid : Int) (qpre : List PyVal) (fields : List (String × PyVal))
        (rest : List PyVal),
        (∀ q ∈ qpre, ∃ kv, q = PyVal.dict kv
          ∧ pyEqInt ((lookupKey kv "id").getD PyVal.none) tqid = false) →
        pyEqInt ((lookupKey fields "id").getD PyVal.none) tqid = true →
        findQueue tqid (qpre ++ PyVal.dict fields :: rest)
          = .ok (some (PyVal.dict fields))) := by
  refine ⟨?_, ?_, ?_, ?_⟩
  · intro tqid now data h
    cases ht : truthy data with
    | false => simp [check_conditions, checkFull, ht]
    | true => simp [check_conditions, checkFull, ht, checkBody, h]
  · intro tqid now data rv h1 h2 h3
    simp [check_conditions, checkFull, truthy_of_subscript h2, checkBody, h1, h2, h3]
  · intro tqid now dkvs rkvs qs hres hreg hnone
    have hfq := findQueue_none tqid qs hnone
    simp [check_conditions, checkFull, truthy_dict_of_lookup hres, checkBody,
      pyContains, containsKey_of_lookup hres, pySubscript, hres,
      containsKey_of_lookup hreg, hreg, pyIter, hfq]
  · intro tqid qpre fields rest hpre hid
    rw [findQueue_skip tqid qpre _ hpre, findQueue]
    simp [pyGetDefault, hid]

/-- C5, witnessed at concrete inputs for each of the four parts. -/
theorem C5_evaluate_negative_witness :
    check_conditions 24 "T" (PyVal.dict [("other", PyVal.int 1)]) = (false, "")
    ∧ check_conditions 24 "T" (PyVal.dict [("result", PyVal.dict [("Kraków", PyVal.list [])])])
        = (false, "")
    ∧ check_conditions 24 "T"
        (PyVal.dict [("result", PyVal.dict [("Wrocław",
          PyVal.list [PyVal.dict [("id", PyVal.int 7)]])])]) = (false, "")
    ∧ findQueue 24 ([PyVal.dict [("id", PyVal.int 7)]]
          ++ PyVal.dict [("id", PyVal.int 24)] :: [PyVal.dict [("id", PyVal.int 24),
            ("name", PyVal.str "other")]])
        = .ok (some (PyVal.dict [("id", PyVal.int 24)])) := by
  obtain ⟨h1, h2, h3, h4⟩ := C5_evaluate_negative_paths
  refine ⟨h1 24 "T" _ rfl, h2 24 "T" _ _ rfl rfl rfl, h3 24 "T" _ _ _ rfl rfl ?_, h4 24 _ _ _ ?_ rfl⟩
  · intro q hq
    simp only [List.mem_singleton] at hq
    exact ⟨[("id", PyVal.int 7)], hq, rfl⟩
  · intro q hq
    simp only [List.mem_singleton] at hq
    exact ⟨[("id", PyVal.int 7)], hq, rfl⟩

/-- C6's counterexample: a 300 response is not a 2xx success, yet
`send_telegram_message` returns `True` - `raise_for_status` raises only for
4xx/5xx. -/
theorem C6_notifier_counterexample :
    send_telegram_message "alert" (PostOutcome.gotResponse 300) = Except.ok true := rfl

/-- C6, amended: the Notifier never raises; it returns `True` for any status
`raise_for_status` passes (every status outside 400-599, all 2xx included)
and `False`, after logging, for timeouts, connection failures and 4xx/5xx
statuses. -/
theorem C6_notifier_amended :
    (∀ (m : String) (o : PostOutcome),
        send_telegram_message m o = Except.ok true
          ∨ send_telegram_message m o = Except.ok false)
    ∧ (∀ (m : String) (s : Nat), ¬(400 ≤ s ∧ s < 600) →
        send_telegram_message m (PostOutcome.gotResponse s) = Except.ok true)
    ∧ (∀ m : String, send_telegram_message m PostOutcome.timeout = Except.ok false)
    ∧ (∀ m : String, send_telegram_message m PostOutcome.connFailure = Except.ok false)
    ∧ (∀ (m : String) (s : Nat), 400 ≤ s → s < 600 →
        send_telegram_message m (PostOutcome.gotResponse s) = Except.ok false) := by
  refine ⟨send_total, ?_, fun m => rfl, fun m => rfl, ?_⟩
  · intro m s h
    simp [send_telegram_message, sendBody, raise_for_status, h]
  · intro m s h1 h2
    have h : 400 ≤ s ∧ s < 600 := ⟨h1, h2⟩
    simp [send_telegram_message, sendBody, raise_for_status, h, PyExc.isRequestException]

/-- C7: once the placeholder check passes, `main` sends exactly one test
notification, attempts no fetch itself, and enters the 5-minute loop exactly
when the test succeeded (the test sits strictly before the loop entry);
when it failed, the loop is never entered. -/
theorem C7_startup_test (env : Env) (tp : PostOutcome)
    (h1 : pyEqOptStr env.token "YOUR_BOT_TOKEN_HERE" = false)
    (h2 : pyEqOptStr env.chatId "YOUR_CHAT_ID_HERE" = false) :
    ∃ evs, main env tp = Except.ok evs
      ∧ countTestSends evs = 1
      ∧ MainEvent.fetchAttempt ∉ evs
      ∧ (send_telegram_message testMessage tp = Except.ok false →
          ∀ n, MainEvent.enteredLoop n ∉ evs)
      ∧ (send_telegram_message testMessage tp = Except.ok true →
          ∃ pre, evs = pre ++ [MainEvent.enteredLoop 5] ∧ countTestSends pre = 1) := by
  rcases send_total testMessage tp with hsend | hsend
  · refine ⟨loadMsgs env ++ [MainEvent.sentTest testMessage,
        MainEvent.printed "✅ Telegram connection test successful!",
        MainEvent.enteredLoop 5], ?_, ?_, ?_, ?_, ?_⟩
    · simp [main, h1, h2, hsend]
    · simp [loadMsgs, countTestSends]
    · simp [loadMsgs]
    · intro hf; simp [hsend] at hf
    · intro _
      exact ⟨loadMsgs env ++ [MainEvent.sentTest testMessage,
        MainEvent.printed "✅ Telegram connection test successful!"], by simp,
        by simp [loadMsgs, countTestSends]⟩
  · refine ⟨loadMsgs env ++ [MainEvent.sentTest testMessage,
        MainEvent.printed "❌ Telegram connection test failed. Check your configuration."],
      ?_, ?_, ?_, ?_, ?_⟩
    · simp [main, h1, h2, hsend]
    · simp [loadMsgs, countTestSends]
    · simp [loadMsgs]
    · intro _ n; simp [loadMsgs]
    · intro ht; simp [hsend] at ht

/-- C7, witnessed at a concrete configuration whose test notification
succeeds. -/
theorem C7_startup_test_witness :
    ∃ evs, main ⟨some "123456:ABC", some "42"⟩ (PostOutcome.gotResponse 200) = Except.ok evs
      ∧ countTestSends evs = 1
      ∧ MainEvent.fetchAttempt ∉ evs
      ∧ (send_telegram_message testMessage (PostOutcome.gotResponse 200) = Except.ok false →
          ∀ n, MainEvent.enteredLoop n ∉ evs)
      ∧ (send_telegram_message testMessage (PostOutcome.gotResponse 200) = Except.ok true →
          ∃ pre, evs = pre ++ [MainEvent.enteredLoop 5] ∧ countTestSends pre = 1) :=
  C7_startup_test ⟨some "123456:ABC", some "42"⟩ (PostOutcome.gotResponse 200)
    (by decide) (by decide)

/-- C8's counterexample: a 300 status is not 2xx, yet with a parsable
non-empty body `fetch_status` returns the parsed data, not Absent -
`raise_for_status` raises only for 4xx/5xx. -/
theorem C8_fetch_absent_counterexample :
    ∃ v, fetch_status (FetchOutcome.gotResponse
        ⟨300, true, Except.ok (PyVal.dict [("result", PyVal.dict [])])⟩)
      = Except.ok (some v) := ⟨_, rfl⟩

/-- C8, amended: `fetch_status` never raises; it returns Absent for a
connection timeout, a connection failure, any 4xx/5xx status, and any empty
body. -/
theorem C8_fetch_absent_amended :
    (∀ o : FetchOutcome, ∃ r, fetch_status o = Except.ok r)
    ∧ fetch_status FetchOutcome.timeout = Except.ok Option.none
    ∧ fetch_status FetchOutcome.connFailure = Except.ok Option.none
    ∧ (∀ (s : Nat) (ne : Bool) (p : Except String PyVal), 400 ≤ s → s < 600 →
        fetch_status (FetchOutcome.gotResponse ⟨s, ne, p⟩) = Except.ok Option.none)
    ∧ (∀ (s : Nat) (p : Except String PyVal),
        fetch_status (FetchOutcome.gotResponse ⟨s, false, p⟩) = Except.ok Option.none) := by
  refine ⟨fetch_total, rfl, rfl, ?_, ?_⟩
  · intro s ne p h1 h2
    have h : 400 ≤ s ∧ s < 600 := ⟨h1, h2⟩
    simp [fetch_status, fetchBody, raise_for_status, h, PyExc.isRequestException]
  · intro s p
    by_cases h : 400 ≤ s ∧ s < 600
    · simp [fetch_status, fetchBody, raise_for_status, h, PyExc.isRequestException]
    · simp [fetch_status, fetchBody, raise_for_status, h]

/-- The C9 world: a healthy 200 response holding the scenario record, a
Notifier that will succeed, and fixed clock readings. -/
def healthyWorld : World :=
  ⟨FetchOutcome.gotResponse ⟨200, true, Except.ok (PyVal.dict c1dkvs)⟩,
   PostOutcome.gotResponse 200, "2026-02-03 10:00:00", "2026-02-03 10:00:05"⟩

set_option maxRecDepth 8192 in
/-- C9: one full `run_check` cycle over the healthy response with queue id 24,
name "Rejestracja pobytu" and ticket_count 3 invokes the Notifier exactly once,
with a message containing both "3" and "Rejestracja pobytu". -/
theorem C9_end_to_end_cycle :
    ∃ m, run_check 24 healthyWorld = Except.ok [m]
      ∧ strSub "3" m ∧ strSub "Rejestracja pobytu" m := by
  refine ⟨_, rfl, by decide, by decide⟩

/-- C10: `check_conditions` is total and always returns `(False, "")` or
`(True, message)`; every falsy input (not only `None`) yields `(False, "")`
with nothing logged, and any exception the body raises is caught and
collapsed to `(False, "")`. -/
theorem C10_evaluate_total (tqid : Int) (now : String) (data : PyVal) :
    (check_conditions tqid now data = (false, "")
      ∨ ∃ m, check_conditions tqid now data = (true, m))
    ∧ (truthy data = false → checkFull tqid now data = ((false, ""), []))
    ∧ (∀ e, checkBody tqid now data = .error e →
        check_conditions tqid now data = (false, "")) := by
  refine ⟨?_, ?_, ?_⟩
  · cases ht : truthy data with
    | false => left; simp [check_conditions, checkFull, ht]
    | true =>
      cases hb : checkBody tqid now data with
      | error e2 => left; simp [check_conditions, checkFull, ht, hb]
      | ok r =>
        rcases checkBody_ok_shape tqid now data r hb with h | ⟨m, h⟩
        · left; simp [check_conditions, checkFull, ht, hb, h]
        · right; exact ⟨m, by simp [check_conditions, checkFull, ht, hb, h]⟩
  · intro ht; simp [checkFull, ht]
  · intro e he
    cases ht : truthy data with
    | false => simp [check_conditions, checkFull, ht]
    | true => simp [check_conditions, checkFull, ht, he]

end App
